import Mathlib

/-!
Verification development for the shulab_code batch-orchestration scripts.

The Python sources are shallowly embedded as executable Lean definitions:

* `src/CortexThickness/recon.py` (and its near-duplicate `recon_ses.py`):
  the per-unit filesystem state is `UnitDir`, the completion probe is
  `check_completion`, the worker body is `process_subject`, discovery and
  dispatch are `discoverUnits` / `reconMain` / `runBatch`.  The external
  `recon-all` process is a parameter `pipeline : String → UnitDir →
  UnitDir × Bool` (post-state of the unit's directory and the
  zero-exit flag), mirroring that the tool itself is a black box.
* `src/TBSS/2_dtifit.py`: `run_dtifit`.
* `src/TBSS/1_famd_erode_register.py`: `run_preproc_reg`.
* `src/CortexThickness/BNA246_HCPMMP1_Schaefer200/run_atlas_batch.py`
  (and the BNA246_HCPMMP1 variant): the sequential step loop is `runSeq`,
  with the external exit statuses supplied by an oracle `exitOk : Nat → Bool`
  indexed by step position.
* `src/CortexThickness/BNA246_HCPMMP1_Schafer200/run_stats_batch.py`:
  regular-expression extraction of global metrics is `extractRules` over
  `Pattern` (each source pattern is a literal pre-text, one capture class,
  and a literal post-text, which these specific regexes are), and the
  derived metrics are `meanCT2Val` / `totalSA2Val`.  A metric cell is
  `Option ℚ`, with `none` standing for Python's `float('nan')` sentinel
  and `some q` for a successfully parsed numeric value; the numeric
  interpretation of a captured string (Python `float()` / `int()`) is an
  oracle `parse : String → ℚ`.
-/

/-! ## Generic string helpers (Python's `in` operator on strings) -/

/-- Boolean test that `p` is an initial segment of the second list. -/
def startsWithCh : List Char → List Char → Bool
  | [], _ => true
  | _ :: _, [] => false
  | a :: as, b :: bs => a == b && startsWithCh as bs

/-- Boolean substring containment on character lists. -/
def hasSubCh (needle : List Char) : List Char → Bool
  | [] => startsWithCh needle []
  | c :: cs => startsWithCh needle (c :: cs) || hasSubCh needle cs

/-- Python's `needle in hay` on strings. -/
def containsStr (needle hay : String) : Bool :=
  hasSubCh needle.toList hay.toList

/-! ## recon.py / recon_ses.py : per-unit filesystem model -/

/-- Contents of the unit's `fs/scripts` area that `check_completion` reads:
whether `recon-all.done` exists, and the text of `recon-all.log` when that
file exists. -/
structure FsScripts where
  doneFile : Bool
  logFile : Option String
  deriving DecidableEq

/-- A work unit's directory: entirely absent, present without an `fs`
subtree, or present with an `fs` subtree. -/
inductive UnitDir where
  | absent
  | present (fs : Option FsScripts)
  deriving DecidableEq

/-- The fixed success marker searched for in `recon-all.log`
(recon.py line 24). -/
def successMarker : String := "finished without error"

/-- recon.py lines 14-26 (identical in recon_ses.py lines 12-24): return
true if `fs/scripts/recon-all.done` exists; otherwise, if
`fs/scripts/recon-all.log` exists and contains the success marker, return
true; otherwise false.  When the unit directory (or its `fs` subtree) is
absent neither path exists. -/
def check_completion : UnitDir → Bool
  | UnitDir.absent => false
  | UnitDir.present none => false
  | UnitDir.present (some s) =>
    if s.doneFile then true
    else
      match s.logFile with
      | some content => containsStr successMarker content
      | none => false

/-- The sentinel file `fs/scripts/recon-all.done` exists. -/
def doneFileExists : UnitDir → Bool
  | UnitDir.present (some s) => s.doneFile
  | _ => false

/-- The log file `fs/scripts/recon-all.log` exists. -/
def logFileExists : UnitDir → Bool
  | UnitDir.present (some s) => s.logFile.isSome
  | _ => false

/-- The log file exists and its content contains the success marker. -/
def logContainsMarker : UnitDir → Bool
  | UnitDir.present (some s) =>
    match s.logFile with
    | some content => containsStr successMarker content
    | none => false
  | _ => false

/-- The unit's `fs` subtree exists. -/
def fsExists : UnitDir → Bool
  | UnitDir.present (some _) => true
  | _ => false

/-- recon.py lines 33-35: `if fs_path.exists(): shutil.rmtree(fs_path)` —
remove the whole `fs` subtree when it exists (a no-op otherwise). -/
def removeFs : UnitDir → UnitDir
  | UnitDir.absent => UnitDir.absent
  | UnitDir.present _ => UnitDir.present none

/-- Per-unit outcome of one batch run (spec's RunResult). -/
inductive RunResult where
  | skipped
  | succeeded
  | failed
  deriving DecidableEq

/-- recon.py lines 29-48 `process_subject` (recon_ses.py `process_ses` is
the same shape): if the unit is already complete, do nothing (Skipped);
otherwise remove any existing `fs` subtree, then invoke the external
`recon-all` pipeline on the reset directory.  A zero exit is Succeeded; a
`CalledProcessError` is caught, reported, and classified Failed.  The unit
is identified by its path string (first component). -/
def process_subject (pipeline : String → UnitDir → UnitDir × Bool)
    (e : String × UnitDir) : (String × UnitDir) × RunResult :=
  if check_completion e.2 then (e, RunResult.skipped)
  else
    ((e.1, (pipeline e.1 (removeFs e.2)).1),
     if (pipeline e.1 (removeFs e.2)).2 then RunResult.succeeded else RunResult.failed)

/-- recon.py line 56 (`incomplete_items = [item for item in items if not
check_completion(item)]`): the sublist of units submitted to the worker
pool. -/
def dispatchList (units : List (String × UnitDir)) : List (String × UnitDir) :=
  units.filter (fun e => !check_completion e.2)

/-- recon.py lines 62-69: every unit handed to the pool is processed by
`process_subject`; a unit that is already complete is never submitted and
its state is untouched, which `process_subject`'s own completion re-check
makes literally equal to mapping `process_subject` over all units. -/
def runBatch (pipeline : String → UnitDir → UnitDir × Bool)
    (units : List (String × UnitDir)) : List ((String × UnitDir) × RunResult) :=
  units.map (process_subject pipeline)

/-- Unit states after one batch run. -/
def batchStates (pipeline : String → UnitDir → UnitDir × Bool)
    (units : List (String × UnitDir)) : List (String × UnitDir) :=
  (runBatch pipeline units).map Prod.fst

/-- Per-unit outcomes of one batch run. -/
def batchResults (pipeline : String → UnitDir → UnitDir × Bool)
    (units : List (String × UnitDir)) : List RunResult :=
  (runBatch pipeline units).map Prod.snd

/-! ## recon.py : unit discovery (main, lines 51-59) -/

/-- One entry of the root directory: its name, whether it is a directory,
and (when it is a unit directory) its `UnitDir` state. -/
structure RootEntry where
  name : String
  isDir : Bool
  state : UnitDir
  deriving DecidableEq

/-- The root directory argument of `main`: either the path does not exist
on disk, or it exists with a (possibly empty) list of entries. -/
inductive RootDir where
  | absent
  | present (entries : List RootEntry)
  deriving DecidableEq

/-- Insertion into a name-sorted list (for `items.sort()`). -/
def insertEntry (e : RootEntry) : List RootEntry → List RootEntry
  | [] => [e]
  | x :: xs => if e.name < x.name then e :: x :: xs else x :: insertEntry e xs

/-- Sort entries by name, as `items.sort()` orders paths. -/
def sortEntries : List RootEntry → List RootEntry
  | [] => []
  | e :: es => insertEntry e (sortEntries es)

/-- recon.py lines 54-55: `Path(path_items).iterdir()` raises
`FileNotFoundError` on a non-existent root (modelled as `Except.error`);
on an existing root it lists the entries, keeps directories, and sorts
them. -/
def discoverUnits : RootDir → Except String (List RootEntry)
  | RootDir.absent => Except.error "FileNotFoundError"
  | RootDir.present es => Except.ok (sortEntries (es.filter (fun e => e.isDir)))

/-- recon.py lines 51-71 `main`: discover units (propagating the discovery
error), filter to the incomplete ones, print the yellow notice when that
list is empty (the returned Bool), and submit each incomplete unit to the
pool. -/
def reconMain (pipeline : String → UnitDir → UnitDir × Bool) (root : RootDir) :
    Except String (Bool × List ((String × UnitDir) × RunResult)) :=
  match discoverUnits root with
  | Except.error e => Except.error e
  | Except.ok items =>
    let units := items.map (fun e => (e.name, e.state))
    let incomplete := dispatchList units
    Except.ok (incomplete.isEmpty, runBatch pipeline incomplete)

/-! ## TBSS/2_dtifit.py : run_dtifit (lines 6-33) -/

/-- The only filesystem state `run_dtifit` touches: whether the
`dwi/dtifit` output directory exists. -/
structure DtifitDir where
  outputDirExists : Bool
  deriving DecidableEq

/-- Result of one `run_dtifit` call: the updated directory state, the
argument list the function constructs, and the list of external commands
it actually launches via `subprocess`. -/
structure DtifitRun where
  state : DtifitDir
  command : List String
  invoked : List (List String)
  deriving DecidableEq

/-- 2_dtifit.py lines 6-33: build the paths, create the `dtifit` output
directory if it is missing, print the progress line, and construct the
`dtifit` argument list.  The function body ends there: the constructed
command is never passed to `subprocess.run`, so no external process is
launched. -/
def run_dtifit (subject_dir : String) (d : DtifitDir) : DtifitRun :=
  let dwi_dir := subject_dir ++ "/dwi"
  let output_dir := dwi_dir ++ "/dtifit"
  let data := dwi_dir ++ "/data_ud.nii.gz"
  let mask := dwi_dir ++ "/raw/b0_brain_mask.nii.gz"
  let bvec_file := dwi_dir ++ "/bvecs"
  let bval_file := dwi_dir ++ "/bvals"
  let d1 : DtifitDir := { d with outputDirExists := true }
  let command := ["dtifit", "--data=" ++ data, "--out=" ++ output_dir ++ "/dti",
    "--mask=" ++ mask, "--bvecs=" ++ bvec_file, "--bvals=" ++ bval_file,
    "--save_tensor"]
  { state := d1, command := command, invoked := [] }

/-! ## run_atlas_batch.py : sequential step loop with abort on failure -/

/-- BNA246_HCPMMP1_Schaefer200/run_atlas_batch.py lines 141-148 (`try: for
cmd in cmds: subprocess.run(cmd, env=env, check=True) ... except
CalledProcessError`), and the unrolled equivalent at
BNA246_HCPMMP1/run_atlas_batch.py lines 113-128: run the steps in order;
`exitOk k` is the zero-exit flag of the k-th launched step.  Returns the
commands actually launched and the index of the first failing step (none
when every step exits zero). -/
def runSeq (exitOk : Nat → Bool) : List (List String) → List (List String) × Option Nat
  | [] => ([], none)
  | c :: cs =>
    if exitOk 0 then
      (c :: (runSeq (fun k => exitOk (k + 1)) cs).1,
       ((runSeq (fun k => exitOk (k + 1)) cs).2).map (fun n => n + 1))
    else ([c], some 0)

/-! ## TBSS/1_famd_erode_register.py : run_preproc_reg (lines 34-64) -/

/-- Existence flags for the files `run_preproc_reg` reads or deletes
before its input check, plus the two input files. -/
structure RegState where
  outFA : Bool
  outMD : Bool
  faEro : Bool
  faMask : Bool
  affine : Bool
  faLin : Bool
  warp : Bool
  fnirtLog : Bool
  tmpDir : Bool
  dtiFA : Bool
  dtiMD : Bool
  deriving DecidableEq

/-- Outcome of `run_preproc_reg` up to its input check. -/
inductive RegOutcome where
  | skippedMissingInput
  | proceeded
  deriving DecidableEq

/-- 1_famd_erode_register.py lines 46 and 56-58: `os.makedirs(tmp_dir,
exist_ok=True)` followed by `delete_if_exists` on the two final outputs
and the six registration temporaries. -/
def clearOutputs (s : RegState) : RegState :=
  { s with tmpDir := true, outFA := false, outMD := false, faEro := false,
           faMask := false, affine := false, faLin := false, warp := false,
           fnirtLog := false }

/-- 1_famd_erode_register.py lines 34-64: create the temp directory and
delete prior outputs and temporaries, then check that the inputs
`dti_FA.nii.gz` and `dti_MD.nii.gz` both exist; if either is missing,
print the warning and return (the subject is skipped); otherwise hand the
already-reset state to the remaining erosion/registration steps
(`rest`, the external fslmaths/flirt/fnirt/applywarp part). -/
def run_preproc_reg (rest : RegState → RegState) (s : RegState) :
    RegState × RegOutcome :=
  let s1 := clearOutputs s
  if s1.dtiFA && s1.dtiMD then (rest s1, RegOutcome.proceeded)
  else (s1, RegOutcome.skippedMissingInput)

/-! ## run_stats_batch.py : extract_global_metrics (lines 254-354) -/

/-- Capture class of the single group in each extraction pattern:
Python's `\S+` (non-whitespace) or `\d+` (digits). -/
inductive CapClass where
  | nonSpace
  | digit
  deriving DecidableEq

/-- One extraction regex of `metrics_rules`: every pattern in the source
is a literal pre-text, one greedy capture group, and a literal post-text. -/
structure Pattern where
  preText : String
  cap : CapClass
  postText : String
  deriving DecidableEq

/-- Character membership in a capture class (`\S` excludes Python's
whitespace set; `\d` is the ASCII digits). -/
def isCapChar : CapClass → Char → Bool
  | CapClass.nonSpace, c =>
    !(c == ' ' || c == '\t' || c == '\n' || c == '\r' || c == '\x0b' || c == '\x0c')
  | CapClass.digit, c => c.isDigit

/-- Greedy backtracking for the capture: the largest length `len ≤ n` of
an initial capture run after which the literal post-text matches (regex
`(\S+)post` prefers the longest capture). -/
def pickLen (post : List Char) (rest : List Char) : Nat → Option Nat
  | 0 => none
  | n + 1 =>
    if startsWithCh post (rest.drop (n + 1)) then some (n + 1)
    else pickLen post rest n

/-- Try to match the pattern anchored at the start of `s`: the pre-text
literally, then a nonempty greedy capture of the class, then the post-text
literally.  Returns the captured characters. -/
def matchAt (p : Pattern) (s : List Char) : Option (List Char) :=
  if startsWithCh p.preText.toList s then
    let rest := s.drop p.preText.length
    match pickLen p.postText.toList rest ((rest.takeWhile (isCapChar p.cap)).length) with
    | some len => some (rest.take len)
    | none => none
  else none

/-- Python `re.search`: try the anchored match at each position from the
left and return the first success. -/
def reSearch (p : Pattern) : List Char → Option (List Char)
  | [] => matchAt p []
  | c :: cs =>
    match matchAt p (c :: cs) with
    | some r => some r
    | none => reSearch p cs

/-- run_stats_batch.py lines 271-278: the `metrics_rules["aseg"]` table,
with each regex split into its literal pre-text, capture class, and
literal post-text (`mm\^3` in the regex matches the literal text
`mm^3`). -/
def asegRules : List (String × Pattern) :=
  [("GMV", { preText := "Measure Cortex, CortexVol, Total cortical gray matter volume, ",
             cap := CapClass.nonSpace, postText := ", mm^3" }),
   ("sGMV", { preText := "Measure SubCortGray, SubCortGrayVol, Subcortical gray matter volume, ",
              cap := CapClass.nonSpace, postText := ", mm^3" }),
   ("WMV", { preText := "Measure CerebralWhiteMatter, CerebralWhiteMatterVol, Total cerebral white matter volume, ",
             cap := CapClass.nonSpace, postText := ", mm^3" }),
   ("Ventricles", { preText := "Measure VentricleChoroidVol, VentricleChoroidVol, Volume of ventricles and choroid plexus, ",
                    cap := CapClass.nonSpace, postText := ", mm^3" }),
   ("TCV", { preText := "Measure EstimatedTotalIntraCranialVol, eTIV, Estimated Total Intracranial Volume, ",
             cap := CapClass.nonSpace, postText := ", mm^3" })]

/-- run_stats_batch.py lines 279-283: the `metrics_rules["aparc"]` table. -/
def aparcRules : List (String × Pattern) :=
  [("lhVertex", { preText := "Measure Cortex, NumVert, Number of Vertices, ",
                  cap := CapClass.digit, postText := ", unitless" }),
   ("lh_totaISA2", { preText := "Measure Cortex, WhiteSurfArea, White Surface Total Area, ",
                     cap := CapClass.nonSpace, postText := ", mm^2" }),
   ("lhMeanThickness", { preText := "Measure Cortex, MeanThickness, Mean Thickness, ",
                         cap := CapClass.nonSpace, postText := ", mm" })]

/-- run_stats_batch.py lines 316-317: `metric.replace("lh", "rh")` and
`pattern.replace("lh", "rh")` to form the right-hemisphere rules (the
replacement touches only the metric names here, since no aparc pattern
text contains "lh"). -/
def rhRule (r : String × Pattern) : String × Pattern :=
  (r.1.replace "lh" "rh",
   { preText := r.2.preText.replace "lh" "rh", cap := r.2.cap,
     postText := r.2.postText.replace "lh" "rh" })

/-- run_stats_batch.py lines 290-296 (and the identical aparc loops): for
each rule, search the file content; on a match parse the captured text to
a number, otherwise record the NaN sentinel (`none`) and continue with
the next metric. -/
def extractRules (parse : String → ℚ) (rules : List (String × Pattern))
    (content : String) : List (String × Option ℚ) :=
  rules.map (fun r =>
    (r.1, (reSearch r.2 content.toList).map (fun cap => parse (String.mk cap))))

/-- NaN-propagating addition on metric values (`none` is NaN). -/
def addVal : Option ℚ → Option ℚ → Option ℚ
  | some a, some b => some (a + b)
  | _, _ => none

/-- NaN-propagating multiplication on metric values. -/
def mulVal : Option ℚ → Option ℚ → Option ℚ
  | some a, some b => some (a * b)
  | _, _ => none

/-- NaN-propagating division on metric values. -/
def divVal : Option ℚ → Option ℚ → Option ℚ
  | some a, some b => some (a / b)
  | _, _ => none

/-- Python's `x > 0` on a possibly-NaN float: `nan > 0` is `False`. -/
def gtZero : Option ℚ → Bool
  | some a => decide (0 < a)
  | none => false

/-- run_stats_batch.py lines 326-342: `meanCT2`.  The outer `Option` is
key presence in the metrics dict (`all(k in metrics for k in [...])`); the
inner `Option ℚ` is the stored value with `none` for NaN.  With all four
keys present the code computes `total_vertices` (NaN-propagating sum),
takes the weighted average when `total_vertices > 0`, and otherwise sets
NaN; with any key absent it sets NaN. -/
def meanCT2Val (lhV rhV lhT rhT : Option (Option ℚ)) : Option ℚ :=
  match lhV, rhV, lhT, rhT with
  | some a, some b, some c, some d =>
    let tot := addVal a b
    if gtZero tot then divVal (addVal (mulVal a c) (mulVal b d)) tot
    else none
  | _, _, _, _ => none

/-- run_stats_batch.py lines 344-352: `totalSA2` is the (NaN-propagating)
sum of the two total-area metrics when both keys are present, NaN
otherwise. -/
def totalSA2Val (lS rS : Option (Option ℚ)) : Option ℚ :=
  match lS, rS with
  | some a, some b => addVal a b
  | _, _ => none

/-- Contents of the three stats files a subject's extraction reads
(`none` means the file is absent). -/
structure StatsFiles where
  asegStats : Option String
  lhAparcStats : Option String
  rhAparcStats : Option String

/-- Key lookup in the metrics association list (Python `k in metrics` /
`metrics[k]`). -/
def lookupMetric (m : List (String × Option ℚ)) (k : String) : Option (Option ℚ) :=
  match m.find? (fun p => p.1 == k) with
  | some p => some p.2
  | none => none

/-- run_stats_batch.py lines 254-354 `extract_global_metrics`: extract the
aseg metrics when `aseg.stats` exists, the lh aparc metrics when
`lh.aparc.stats` exists, the rh metrics (rules renamed `lh`→`rh`) when
`rh.aparc.stats` exists — a missing file contributes no keys at all —
then append the two derived metrics computed from whichever keys are
present. -/
def extract_global_metrics (parse : String → ℚ) (files : StatsFiles) :
    List (String × Option ℚ) :=
  let m1 := match files.asegStats with
    | some content => extractRules parse asegRules content
    | none => []
  let m2 := match files.lhAparcStats with
    | some content => extractRules parse aparcRules content
    | none => []
  let m3 := match files.rhAparcStats with
    | some content => extractRules parse (aparcRules.map rhRule) content
    | none => []
  let base := m1 ++ m2 ++ m3
  base ++
    [("meanCT2", meanCT2Val (lookupMetric base "lhVertex") (lookupMetric base "rhVertex")
        (lookupMetric base "lhMeanThickness") (lookupMetric base "rhMeanThickness")),
     ("totalSA2", totalSA2Val (lookupMetric base "lh_totaISA2") (lookupMetric base "rh_totaISA2"))]

/-- Default entry used to state index-based hypotheses with `List.getD`. -/
def emptyEntry : String × UnitDir := ("", UnitDir.absent)

/-- Default rule used to state index-based hypotheses with `List.getD`. -/
def emptyRule : String × Pattern :=
  ("", { preText := "", cap := CapClass.nonSpace, postText := "" })

/-- Sample unit state with the sentinel file present (used in witnesses). -/
def completeDone : UnitDir := UnitDir.present (some { doneFile := true, logFile := none })

/-- Sample incomplete unit state with no `fs` subtree (used in witnesses). -/
def incompleteNone : UnitDir := UnitDir.present none

/-- Sample pipeline oracle that fails exactly on the unit named "B"
(used in witnesses). -/
def failPipeline : String → UnitDir → UnitDir × Bool :=
  fun n _ => (completeDone, n == "A")

/-- Sample two-unit batch, both incomplete (used in witnesses). -/
def failUnits : List (String × UnitDir) := [("A", incompleteNone), ("B", incompleteNone)]

/-- Sample `aseg.stats` content containing four of the five expected
measure lines and missing the `GMV` line (used in witnesses). -/
def sampleStats : String :=
  "Measure SubCortGray, SubCortGrayVol, Subcortical gray matter volume, 61000.0, mm^3\nMeasure CerebralWhiteMatter, CerebralWhiteMatterVol, Total cerebral white matter volume, 470000.0, mm^3\nMeasure VentricleChoroidVol, VentricleChoroidVol, Volume of ventricles and choroid plexus, 11500.0, mm^3\nMeasure EstimatedTotalIntraCranialVol, eTIV, Estimated Total Intracranial Volume, 1500000.0, mm^3\n"

/-! ## Theorems -/

/-- Helper: one batch run yields exactly one state per unit. -/
theorem batchStates_length (pipeline : String → UnitDir → UnitDir × Bool)
    (units : List (String × UnitDir)) :
    (batchStates pipeline units).length = units.length := by
  simp [batchStates, runBatch]

/-- Helper: one batch run yields exactly one outcome per unit. -/
theorem batchResults_length (pipeline : String → UnitDir → UnitDir × Bool)
    (units : List (String × UnitDir)) :
    (batchResults pipeline units).length = units.length := by
  simp [batchResults, runBatch]

/-- C3: the completion check returns true iff the sentinel file
`fs/scripts/recon-all.done` exists or the log file
`fs/scripts/recon-all.log` exists and contains "finished without error",
and it returns false when the unit's working directory is entirely
absent. -/
theorem check_completion_truth_table (u : UnitDir) :
    (check_completion u = true ↔
      (doneFileExists u = true ∨ (logFileExists u = true ∧ logContainsMarker u = true)))
    ∧ check_completion UnitDir.absent = false := by
  refine ⟨?_, rfl⟩
  cases u with
  | absent => simp [check_completion, doneFileExists, logFileExists, logContainsMarker]
  | present fs =>
    cases fs with
    | none => simp [check_completion, doneFileExists, logFileExists, logContainsMarker]
    | some s =>
      cases hd : s.doneFile <;> cases hl : s.logFile <;>
        simp [check_completion, doneFileExists, logFileExists, logContainsMarker, hd, hl]

/-- C4: for a unit that is not complete, the worker removes the whole
`fs` subtree first, and the external pipeline is then invoked on exactly
that reset state. -/
theorem pre_run_reset (pipeline : String → UnitDir → UnitDir × Bool) (n : String)
    (u : UnitDir) (h : check_completion u = false) :
    fsExists (removeFs u) = false ∧
    process_subject pipeline (n, u) =
      ((n, (pipeline n (removeFs u)).1),
       if (pipeline n (removeFs u)).2 then RunResult.succeeded else RunResult.failed) := by
  constructor
  · cases u <;> rfl
  · simp [process_subject, h]

/-- C4 witness: `pre_run_reset` applied to an incomplete unit. -/
theorem pre_run_reset_witness :
    fsExists (removeFs (UnitDir.present (some { doneFile := false, logFile := none }))) = false :=
  (pre_run_reset (fun _ u => (u, true)) "sub01"
    (UnitDir.present (some { doneFile := false, logFile := none })) (by decide)).1

/-- C6: `run_dtifit` builds a nonempty `dtifit` argument list for every
subject but launches no external process at all — the constructed command
is never passed to `subprocess.run`. -/
theorem dtifit_never_invoked (subject_dir : String) (d : DtifitDir) :
    (run_dtifit subject_dir d).invoked = [] ∧ (run_dtifit subject_dir d).command ≠ [] :=
  ⟨rfl, by simp [run_dtifit]⟩

/-- C10: when either input file is missing, `run_preproc_reg` skips the
subject only after having already deleted the previous outputs
(`FA_in_MNI.nii.gz`, `MD_in_MNI.nii.gz`) and the registration
temporaries: the skip path returns the reset state, whose output flags
are false. -/
theorem reset_precedes_input_check (rest : RegState → RegState) (s : RegState)
    (h : s.dtiFA = false ∨ s.dtiMD = false) :
    run_preproc_reg rest s = (clearOutputs s, RegOutcome.skippedMissingInput) ∧
    (clearOutputs s).outFA = false ∧ (clearOutputs s).outMD = false := by
  have hcond : ((clearOutputs s).dtiFA && (clearOutputs s).dtiMD) = false := by
    rcases h with h | h <;> simp [clearOutputs, h]
  refine ⟨?_, rfl, rfl⟩
  simp [run_preproc_reg, hcond]

/-- C10 witness: a subject with stale outputs and a missing `dti_FA`
input is skipped with its outputs already deleted. -/
theorem reset_precedes_input_check_witness :
    run_preproc_reg id
      { outFA := true, outMD := true, faEro := true, faMask := false, affine := false,
        faLin := false, warp := false, fnirtLog := false, tmpDir := false,
        dtiFA := false, dtiMD := true } =
      ({ outFA := false, outMD := false, faEro := false, faMask := false, affine := false,
         faLin := false, warp := false, fnirtLog := false, tmpDir := true,
         dtiFA := false, dtiMD := true }, RegOutcome.skippedMissingInput) :=
  (reset_precedes_input_check id
    { outFA := true, outMD := true, faEro := true, faMask := false, affine := false,
      faLin := false, warp := false, fnirtLog := false, tmpDir := false,
      dtiFA := false, dtiMD := true } (Or.inl rfl)).1

/-- C1: when every dispatched unit's pipeline run exits zero and leaves
the unit complete (the recon-all sentinel contract), a second consecutive
batch run over the resulting states dispatches no unit at all — the
completion filter removes every unit before submission — and classifies
every unit as Skipped. -/
theorem batch_idempotent (pipeline : String → UnitDir → UnitDir × Bool)
    (units : List (String × UnitDir))
    (hok : ∀ e ∈ units, check_completion e.2 = false →
      (pipeline e.1 (removeFs e.2)).2 = true ∧
      check_completion (pipeline e.1 (removeFs e.2)).1 = true) :
    dispatchList (batchStates pipeline units) = [] ∧
    batchResults pipeline (batchStates pipeline units) =
      List.replicate units.length RunResult.skipped := by
  have hall : ∀ x ∈ batchStates pipeline units, check_completion x.2 = true := by
    intro x hx
    simp only [batchStates, runBatch, List.map_map] at hx
    rcases List.mem_map.mp hx with ⟨y, hy, rfl⟩
    by_cases hc : check_completion y.2 = true
    · simpa [Function.comp, process_subject, hc] using hc
    · have hb := hok y hy (Bool.eq_false_iff.mpr hc)
      simpa [Function.comp, process_subject, hc] using hb.2
  constructor
  · rw [dispatchList, List.filter_eq_nil]
    intro a ha
    simp [hall a ha]
  · rw [List.eq_replicate]
    constructor
    · rw [batchResults_length, batchStates_length]
    · intro b hb
      simp only [batchResults, runBatch, List.map_map] at hb
      rcases List.mem_map.mp hb with ⟨y, hy, rfl⟩
      simp [Function.comp, process_subject, hall y hy]

/-- C1 witness: a two-unit batch (one already complete, one not) whose
pipeline succeeds; the second run dispatches nothing and skips both. -/
theorem batch_idempotent_witness :
    dispatchList (batchStates (fun _ _ => (completeDone, true))
      [("A", completeDone), ("B", incompleteNone)]) = [] ∧
    batchResults (fun _ _ => (completeDone, true))
      (batchStates (fun _ _ => (completeDone, true))
        [("A", completeDone), ("B", incompleteNone)]) =
      List.replicate 2 RunResult.skipped :=
  batch_idempotent (fun _ _ => (completeDone, true))
    [("A", completeDone), ("B", incompleteNone)] (by decide)

/-- C2: in a batch of at least two incomplete units in which exactly the
i-th unit's pipeline exits nonzero, the batch still produces one terminal
outcome per unit, the i-th outcome is Failed, and every other outcome is
Succeeded — one unit's failure is absorbed at its own worker and never
alters a sibling's processing. -/
theorem batch_failure_isolation (pipeline : String → UnitDir → UnitDir × Bool)
    (units : List (String × UnitDir)) (i : Nat)
    (hlen : 2 ≤ units.length) (hi : i < units.length)
    (hinc : ∀ e ∈ units, check_completion e.2 = false)
    (hfail : ∀ j, j < units.length →
      ((pipeline (units.getD j emptyEntry).1
          (removeFs (units.getD j emptyEntry).2)).2 = true ↔ j ≠ i)) :
    (batchResults pipeline units).length = units.length ∧
    ∀ j, j < units.length →
      (batchResults pipeline units).get? j =
        some (if j = i then RunResult.failed else RunResult.succeeded) := by
  refine ⟨batchResults_length pipeline units, ?_⟩
  intro j hj
  have hget : units.get? j = some (units.get ⟨j, hj⟩) := List.get?_eq_get hj
  have hgetD : units.getD j emptyEntry = units.get ⟨j, hj⟩ := by
    rw [List.getD_eq_get?, hget]; rfl
  have hmem : units.get ⟨j, hj⟩ ∈ units := List.get_mem units j hj
  have hc : check_completion (units.get ⟨j, hj⟩).2 = false := hinc _ hmem
  have hf := hfail j hj
  rw [hgetD] at hf
  rw [batchResults, runBatch, List.map_map, List.get?_map, hget]
  by_cases hji : j = i
  · have hnt : ¬ ((pipeline (units.get ⟨j, hj⟩).1
        (removeFs (units.get ⟨j, hj⟩).2)).2 = true) := fun ht => (hf.mp ht) hji
    have hfalse := Bool.eq_false_iff.mpr hnt
    subst hji
    simp only [List.get_eq_getElem] at hc hfalse
    simp [Function.comp, process_subject, hc, hfalse]
  · have htrue := hf.mpr hji
    simp only [List.get_eq_getElem] at hc htrue
    simp [Function.comp, process_subject, hc, htrue, hji]

/-- C2 witness: two incomplete units where the pipeline fails exactly on
unit "B"; unit "A" succeeds, unit "B" fails, both have outcomes. -/
theorem batch_failure_isolation_witness :
    (batchResults failPipeline failUnits).length = 2 ∧
    (batchResults failPipeline failUnits).get? 0 = some RunResult.succeeded ∧
    (batchResults failPipeline failUnits).get? 1 = some RunResult.failed := by
  have h := batch_failure_isolation failPipeline failUnits 1 (by decide) (by decide)
    (by decide) (by decide)
  refine ⟨by simpa [failUnits] using h.1, ?_, ?_⟩
  · simpa using h.2 0 (by decide)
  · simpa using h.2 1 (by decide)

/-- C5 counterexample: unit discovery on a root directory that does not
exist is an error (`FileNotFoundError` from `Path.iterdir`), not an empty
set of units. -/
theorem discovery_absent_root_errors :
    discoverUnits RootDir.absent = Except.error "FileNotFoundError" ∧
    discoverUnits RootDir.absent ≠ Except.ok [] :=
  ⟨rfl, fun h => Except.noConfusion h⟩

/-- C5 amended: discovery on any root directory that exists always
succeeds; on an existing empty root it yields no units and the batch
entry point reports the empty-dispatch notice instead of failing. -/
theorem discovery_amended (pipeline : String → UnitDir → UnitDir × Bool) :
    (∀ es : List RootEntry, ∃ items, discoverUnits (RootDir.present es) = Except.ok items) ∧
    reconMain pipeline (RootDir.present []) = Except.ok (true, []) :=
  ⟨fun _ => ⟨_, rfl⟩, rfl⟩

/-- C7: pipeline steps run strictly in order, and on the first nonzero
exit (step i) the remaining steps are never launched: the executed
commands are exactly the sequential prefix through step i, and the run is
classified as failed at index i. -/
theorem steps_abort_on_failure (exitOk : Nat → Bool) (cmds : List (List String)) (i : Nat)
    (hi : i < cmds.length) (hzero : ∀ j, j < i → exitOk j = true)
    (hfail : exitOk i = false) :
    runSeq exitOk cmds = (cmds.take (i + 1), some i) := by
  induction cmds generalizing exitOk i with
  | nil => simp at hi
  | cons c cs ih =>
    cases i with
    | zero => simp [runSeq, hfail]
    | succ k =>
      have h0 : exitOk 0 = true := hzero 0 (Nat.succ_pos k)
      have ihh := ih (fun n => exitOk (n + 1)) k (Nat.lt_of_succ_lt_succ hi)
        (fun j hj => hzero (j + 1) (Nat.succ_lt_succ hj)) hfail
      simp [runSeq, h0, ihh, List.take_succ_cons]

/-- C7 witness: a three-step pipeline whose second step fails launches
exactly the first two steps and reports failure at index 1. -/
theorem steps_abort_on_failure_witness :
    runSeq (fun n => n == 0) [["step0"], ["step1"], ["step2"]] =
      ([["step0"], ["step1"]], some 1) := by
  have h := steps_abort_on_failure (fun n => n == 0) [["step0"], ["step1"], ["step2"]] 1
    (by decide) (by decide) (by decide)
  simpa using h

/-- C8: when the content of a stats file matches every extraction rule
except exactly the i-th one, the extraction still produces one cell per
rule with the rule's metric name (the subject-level loop never aborts),
assigns the NaN sentinel to exactly the i-th metric, and stores the
parsed captured value for every other metric. -/
theorem extract_missing_metric (parse : String → ℚ) (rules : List (String × Pattern))
    (content : String) (i : Nat) (hi : i < rules.length)
    (hmiss : reSearch (rules.getD i emptyRule).2 content.toList = none)
    (hhit : ∀ j, j < rules.length → j ≠ i →
      (reSearch (rules.getD j emptyRule).2 content.toList).isSome = true) :
    (extractRules parse rules content).length = rules.length ∧
    ∀ j, j < rules.length →
      ((extractRules parse rules content).get? j =
        some ((rules.getD j emptyRule).1,
          (reSearch (rules.getD j emptyRule).2 content.toList).map
            (fun cap => parse (String.mk cap))) ∧
       ((reSearch (rules.getD j emptyRule).2 content.toList).map
            (fun cap => parse (String.mk cap)) = none ↔ j = i)) := by
  refine ⟨by simp [extractRules], ?_⟩
  intro j hj
  have hget : rules.get? j = some (rules.get ⟨j, hj⟩) := List.get?_eq_get hj
  have hgetD : rules.getD j emptyRule = rules.get ⟨j, hj⟩ := by
    rw [List.getD_eq_get?, hget]; rfl
  constructor
  · simp only [extractRules]
    rw [List.get?_map, hget, hgetD]
    rfl
  · by_cases hji : j = i
    · subst hji
      rw [hmiss]
      simp
    · have hs := hhit j hj hji
      rcases Option.isSome_iff_exists.mp hs with ⟨v, hv⟩
      rw [hv]
      simp [hji]

set_option maxRecDepth 40000 in
/-- C8 witness: a stats file containing four of the five aseg measure
lines and missing the GMV line; its GMV pattern finds no match and the
extraction still yields all five cells. -/
theorem extract_missing_metric_witness :
    reSearch (asegRules.getD 0 emptyRule).2 sampleStats.toList = none ∧
    (extractRules (fun _ => (0 : ℚ)) asegRules sampleStats).length = 5 := by
  have h := extract_missing_metric (fun _ => (0 : ℚ)) asegRules sampleStats 0
    (by decide) (by decide) (by decide)
  exact ⟨by decide, by rw [h.1]; rfl⟩

/-- C9: with all four vertex/thickness metrics extracted as real values
and a positive total vertex count, meanCT2 is exactly the vertex-weighted
average; with both total-area metrics extracted, totalSA2 is exactly
their sum; in every other case (a key absent because its file was
missing, a NaN cell, or a non-positive vertex total) the derived metric
is the NaN sentinel. -/
theorem derived_metrics_formula :
    (∀ a b c d : ℚ, 0 < a + b →
      meanCT2Val (some (some a)) (some (some b)) (some (some c)) (some (some d)) =
        some ((a * c + b * d) / (a + b))) ∧
    (∀ x y : ℚ, totalSA2Val (some (some x)) (some (some y)) = some (x + y)) ∧
    (∀ v1 v2 v3 v4 : Option (Option ℚ),
      (¬ ∃ a b c d : ℚ, v1 = some (some a) ∧ v2 = some (some b) ∧ v3 = some (some c) ∧
        v4 = some (some d) ∧ 0 < a + b) →
      meanCT2Val v1 v2 v3 v4 = none) ∧
    (∀ w1 w2 : Option (Option ℚ),
      (¬ ∃ x y : ℚ, w1 = some (some x) ∧ w2 = some (some y)) →
      totalSA2Val w1 w2 = none) := by
  refine ⟨?_, ?_, ?_, ?_⟩
  · intro a b c d h
    simp [meanCT2Val, addVal, mulVal, divVal, gtZero, h]
  · intro x y
    rfl
  · intro v1 v2 v3 v4 h
    rcases v1 with _ | a
    · rfl
    rcases v2 with _ | b
    · rfl
    rcases v3 with _ | c
    · rfl
    rcases v4 with _ | d
    · rfl
    rcases a with _ | qa
    · rfl
    rcases b with _ | qb
    · rfl
    rcases c with _ | qc
    · simp [meanCT2Val, addVal, mulVal, divVal]
    rcases d with _ | qd
    · simp [meanCT2Val, addVal, mulVal, divVal]
    have hng : ¬ (0 < qa + qb) := fun hp => h ⟨qa, qb, qc, qd, rfl, rfl, rfl, rfl, hp⟩
    simp [meanCT2Val, addVal, mulVal, divVal, gtZero, hng]
  · intro w1 w2 h
    rcases w1 with _ | x
    · rfl
    rcases w2 with _ | y
    · rfl
    rcases x with _ | qx
    · rfl
    rcases y with _ | qy
    · rfl
    exact absurd ⟨qx, qy, rfl, rfl⟩ h

/-- C9 witness: concrete instances of the weighted-average case, the sum
case, a missing-key case, and a NaN-cell case. -/
theorem derived_metrics_formula_witness :
    meanCT2Val (some (some (2 : ℚ))) (some (some 3)) (some (some 10)) (some (some 20)) =
      some ((2 * 10 + 3 * 20) / (2 + 3)) ∧
    totalSA2Val (some (some (5 : ℚ))) (some (some 7)) = some (5 + 7) ∧
    meanCT2Val none (some (some (3 : ℚ))) (some (some 10)) (some (some 20)) = none ∧
    totalSA2Val (some (none : Option ℚ)) (some (some 7)) = none := by
  refine ⟨derived_metrics_formula.1 2 3 10 20 (by norm_num),
    derived_metrics_formula.2.1 5 7,
    derived_metrics_formula.2.2.1 none _ _ _ ?_,
    derived_metrics_formula.2.2.2 _ _ ?_⟩
  · rintro ⟨a, b, c, d, h1, h2, h3, h4, h5⟩
    exact Option.noConfusion h1
  · rintro ⟨x, y, h1, h2⟩
    exact Option.noConfusion (Option.some.inj h1)
